import Mathlib

/-!
Verification of `src/snowflake/snowpark/_internal/server_connection.py`
(the `ServerConnection` class) against its natural-language specification.

The development is a shallow embedding of the execution core:
- the pure type mapper `_get_data_type`;
- the decorator `_Decorator.wrap_exception` (liveness guard plus
  re-authentication translation);
- the execution engine `run_query` / `run_batch_insert` together with the
  listener registry (`notify_query_listeners`, `add_query_listener`,
  `remove_query_listener`);
- the plan executor `get_result_set` (placeholder substitution, cooperative
  cancellation, guaranteed post-action cleanup, result selection).

External collaborators (the connector's cursor, the session's cancellation
watermark, `Utils.is_in_stored_procedure`, identifier quoting) are modelled as
explicit parameters: the cursor is a deterministic oracle keyed by statement
text, and the watermark — shared mutable state written outside this core — is
a function of the read index.
-/

deriving instance DecidableEq for Except

/-- Internal Snowpark data types (`snowflake.snowpark.types`) as produced by
`ServerConnection._get_data_type`. Decimal precision/scale are the Python
integers carried by `DecimalType(precision, scale)`. -/
inductive DataType : Type
  | ArrayType (element : DataType)
  | VariantType
  | MapType (key value : DataType)
  | GeographyType
  | BooleanType
  | BinaryType
  | StringType
  | TimeType
  | TimestampType
  | DateType
  | DecimalType (precision scale : Int)
  | DoubleType
  | LongType
deriving DecidableEq, Repr

/-- Modelled from the spec: `DecimalType._MAX_PRECISION`, the maximum
supported decimal precision. The class `DecimalType` lives in
`snowflake/snowpark/types.py`, which is not under src/; the spec fixes the
default decimal to (38, 18) and says precision is clamped to this maximum. -/
def DecimalType_MAX_PRECISION : Int := 38

/-- Modelled from the spec: `DecimalType._MAX_SCALE`, the maximum supported
decimal scale, used in the spec's lossy rebalancing formula
`scale + precision - max_scale` (not under src/). -/
def DecimalType_MAX_SCALE : Int := 38

/-- `ServerConnection._get_data_type`: convert a Snowflake logical type name
(with precision and scale) to a Snowpark type; the trailing
`NotImplementedError` for unsupported types is modelled as `.error`. -/
def _get_data_type (column_type_name : String) (precision scale : Int) :
    Except String DataType :=
  if column_type_name = "ARRAY" then .ok (.ArrayType .StringType)
  else if column_type_name = "VARIANT" then .ok .VariantType
  else if column_type_name = "OBJECT" then .ok (.MapType .StringType .StringType)
  else if column_type_name = "GEOGRAPHY" then .ok .GeographyType
  else if column_type_name = "BOOLEAN" then .ok .BooleanType
  else if column_type_name = "BINARY" then .ok .BinaryType
  else if column_type_name = "TEXT" then .ok .StringType
  else if column_type_name = "TIME" then .ok .TimeType
  else if column_type_name = "TIMESTAMP" ∨ column_type_name = "TIMESTAMP_LTZ" ∨
      column_type_name = "TIMESTAMP_TZ" ∨ column_type_name = "TIMESTAMP_NTZ" then
    .ok .TimestampType
  else if column_type_name = "DATE" then .ok .DateType
  else if column_type_name = "DECIMAL" ∨
      (column_type_name = "FIXED" ∧ scale ≠ 0) then
    if precision ≠ 0 ∨ scale ≠ 0 then
      if precision > DecimalType_MAX_PRECISION then
        .ok (.DecimalType DecimalType_MAX_PRECISION
          (scale + precision - DecimalType_MAX_SCALE))
      else
        .ok (.DecimalType precision scale)
    else
      .ok (.DecimalType 38 18)
  else if column_type_name = "REAL" then .ok .DoubleType
  else if column_type_name = "FIXED" ∧ scale = 0 then .ok .LongType
  else .error ("Unsupported type: " ++ column_type_name)

/-- Raw result data fetched from a cursor: rows of scalar values (a pandas
table is abstracted to the same row shape; its contents are irrelevant to the
verified properties). -/
abbrev Data := List (List String)

/-- Exceptions crossing the modelled boundary. The Snowpark client errors map
as: `SERVER_SESSION_HAS_BEEN_CLOSED` = `sessionClosed`,
`SERVER_SESSION_EXPIRED` = `sessionExpired`, `SERVER_FAILED_FETCH_PANDAS` =
`failedFetchPandas`, `SERVER_QUERY_IS_CANCELLED` = `queryCancelled`,
`SQL_LAST_QUERY_RETURN_RESULTSET` = `emptyResult`; the connector's
`ReauthenticationRequest` is `reauthenticationRequest`; every other
transport/driver exception is `generic`. -/
inductive PyExc : Type
  | sessionClosed
  | sessionExpired (cause : String)
  | reauthenticationRequest (cause : String)
  | failedFetchPandas (msg : String)
  | queryCancelled
  | emptyResult
  | generic (msg : String)
deriving DecidableEq, Repr

/-- Outcome of `results_cursor.fetch_pandas_all()`: success, the connector's
`NotSupportedError` (which triggers the row-fetch fallback), or any other
`BaseException` (carried as its message). -/
inductive PandasOutcome : Type
  | ok (data : Data)
  | notSupported
  | otherError (msg : String)
deriving DecidableEq, Repr

/-- What a successful `cursor.execute`/`executemany` leaves on the cursor:
the server-assigned statement id `sfqid` and the column `description`
(opaque here). -/
structure CursorResult where
  sfqid : String
  description : List String
deriving DecidableEq, Repr

/-- Deterministic model of the remote server as seen through the single
cursor, keyed by statement text: the outcome of `execute`/`executemany`, of
`fetch_pandas_all`, and of `fetchall`. -/
structure ServerModel where
  exec : String → Except PyExc CursorResult
  pandasFetch : String → PandasOutcome
  rowsFetch : String → Except PyExc Data

/-- A registered query listener (a `QueryHistory` object): an identity plus
its append-only log of (statement id, statement text) records. -/
structure Listener where
  lid : Nat
  log : List (String × String)
deriving DecidableEq, Repr

/-- Connection-side state of a `ServerConnection`: liveness
(`_conn.is_closed()`), the registered listeners (`_query_listener`), the last
cursor description (`_cursor.description`), and the trace of statement texts
submitted to the cursor — the observation of each `execute`/`executemany`
call, recorded at the call whether or not it succeeds. -/
structure ConnState where
  closed : Bool
  listeners : List Listener
  description : List String
  execLog : List String
deriving DecidableEq, Repr

/-- Result of one operation: the Python return-or-raise outcome paired with
the connection state after the call. -/
structure StepOut (α : Type) where
  res : Except PyExc α
  st : ConnState
deriving DecidableEq

/-- `add_query_listener`: insertion into the `_query_listener` set (no
duplicate identities; re-adding a registered listener is a no-op). -/
def add_query_listener (st : ConnState) (l : Listener) : ConnState :=
  if st.listeners.any (fun x => x.lid = l.lid) then st
  else { st with listeners := st.listeners ++ [l] }

/-- `remove_query_listener`: removal from the `_query_listener` set; Python's
`set.remove` raises `KeyError` when the listener is absent. -/
def remove_query_listener (st : ConnState) (lid : Nat) : StepOut Unit :=
  if st.listeners.any (fun x => x.lid = lid) then
    ⟨.ok (), { st with listeners := st.listeners.filter (fun x => x.lid ≠ lid) }⟩
  else ⟨.error (.generic "KeyError"), st⟩

/-- `notify_query_listeners`: broadcast one (statement id, statement text)
record to every registered listener (`listener._add_query(query_record)`). -/
def notify_query_listeners (st : ConnState) (query_record : String × String) :
    ConnState :=
  { st with
    listeners := st.listeners.map (fun l => { l with log := l.log ++ [query_record] }) }

/-- One `self._cursor.execute(query)` / `executemany(query, params)` call
followed by the `notify_query_listeners((cursor.sfqid, cursor.query))` at
every call site in `run_query` and `run_batch_insert`: the attempt is traced;
on success the cursor description is updated and the listeners are notified;
on failure the exception propagates with no broadcast. -/
def cursor_execute (srv : ServerModel) (st : ConnState) (query : String) :
    StepOut CursorResult :=
  let st1 := { st with execLog := st.execLog ++ [query] }
  match srv.exec query with
  | .error e => ⟨.error e, st1⟩
  | .ok cur =>
      ⟨.ok cur,
        notify_query_listeners { st1 with description := cur.description }
          (cur.sfqid, query)⟩

/-- `ServerConnection._Decorator.wrap_exception`: fail fast with
`SERVER_SESSION_HAS_BEEN_CLOSED` when `_conn.is_closed()`; translate
`ReauthenticationRequest` into `SERVER_SESSION_EXPIRED(ex.cause)`; re-raise
every other exception unchanged. -/
def wrap_exception {α : Type} (st : ConnState) (body : ConnState → StepOut α) :
    StepOut α :=
  if st.closed then ⟨.error .sessionClosed, st⟩
  else
    match body st with
    | ⟨.error (.reauthenticationRequest cause), st1⟩ =>
        ⟨.error (.sessionExpired cause), st1⟩
    | out => out

/-- The value `run_query` returns: `{"data": data, "sfqid": results_cursor.sfqid}`. -/
structure RunQueryOut where
  data : Data
  sfqid : String
deriving DecidableEq, Repr

/-- Body of `run_query` (inside the decorator): execute and notify, then
fetch. With `to_pandas` the tabular fetch is tried first; the connector's
`NotSupportedError` falls back to `fetchall()`; any other tabular-fetch
failure is wrapped as `SERVER_FAILED_FETCH_PANDAS`; a `fetchall()` failure
(on either path) propagates unchanged. -/
def run_query_body (srv : ServerModel) (query : String) (to_pandas : Bool)
    (st : ConnState) : StepOut RunQueryOut :=
  match cursor_execute srv st query with
  | ⟨.error e, st1⟩ => ⟨.error e, st1⟩
  | ⟨.ok cur, st1⟩ =>
      if to_pandas then
        match srv.pandasFetch query with
        | .ok d => ⟨.ok ⟨d, cur.sfqid⟩, st1⟩
        | .notSupported =>
            match srv.rowsFetch query with
            | .ok d => ⟨.ok ⟨d, cur.sfqid⟩, st1⟩
            | .error e => ⟨.error e, st1⟩
        | .otherError m => ⟨.error (.failedFetchPandas m), st1⟩
      else
        match srv.rowsFetch query with
        | .ok d => ⟨.ok ⟨d, cur.sfqid⟩, st1⟩
        | .error e => ⟨.error e, st1⟩

/-- `run_query`, as decorated with `_Decorator.wrap_exception`. -/
def run_query (srv : ServerModel) (st : ConnState) (query : String)
    (to_pandas : Bool) : StepOut RunQueryOut :=
  wrap_exception st (run_query_body srv query to_pandas)

/-- The single-quote character, used when embedding the query tag. -/
def squote : String := String.singleton (Char.ofNat 39)

/-- Whether `l` starts with `pat` (character-wise). -/
def startsWithChars : List Char → List Char → Bool
  | [], _ => true
  | _ :: _, [] => false
  | p :: ps, c :: cs => p = c && startsWithChars ps cs

/-- Python `"".join`-style interleaving for `str.replace` with an empty
pattern: the replacement goes before every character and at the end. -/
def interleaveRep (rep : List Char) : List Char → List Char
  | [] => rep
  | c :: cs => rep ++ c :: interleaveRep rep cs

/-- Fuelled scan for `str.replace`: at each position, a match of `pat` emits
`rep` and skips the match, otherwise the character is kept; each step consumes
one unit of fuel and at least one input character, so fuel equal to the input
length is exact for a non-empty pattern. -/
def replaceFuel (pat rep : List Char) : Nat → List Char → List Char
  | _, [] => []
  | 0, l => l
  | fuel + 1, c :: cs =>
      if startsWithChars pat (c :: cs) then
        rep ++ replaceFuel pat rep fuel ((c :: cs).drop pat.length)
      else
        c :: replaceFuel pat rep fuel cs

/-- Python `str.replace(pattern, replacement)`: every non-overlapping
occurrence is replaced left to right (with the empty-pattern corner case of
inserting the replacement at every boundary). Defined over character lists so
that it is structurally recursive and kernel-evaluable. -/
def str_replace (s pattern replacement : String) : String :=
  match pattern.data with
  | [] => String.mk (interleaveRep replacement.data s.data)
  | p :: ps =>
      String.mk (replaceFuel (p :: ps) replacement.data s.data.length s.data)

/-- The tag-set statement text built by `run_batch_insert`: the f-string
embeds the tag between single quotes verbatim, with no escaping. -/
def set_query_tag_stmt (tag : String) : String :=
  "alter session set query_tag=" ++ squote ++ tag ++ squote

/-- The `query_tag` local of `run_batch_insert`: the requested
`_statement_params["QUERY_TAG"]` (if any), suppressed when
`Utils.is_in_stored_procedure()`. -/
def effective_query_tag (requested_tag : Option String)
    (in_stored_procedure : Bool) : Option String :=
  if in_stored_procedure then none else requested_tag

/-- Python truthiness of the optional tag in `if query_tag:`; `None` and the
empty string skip the tag wrapping. -/
def tag_truthy : Option String → Bool
  | none => false
  | some s => s != ""

/-- Body of `run_batch_insert` (inside the decorator): positional qmark
binding of `rows` is performed by the driver and folded into the server
oracle; when a truthy query tag is in effect, the `executemany` is wrapped in
tag-set / tag-unset statements, each executed and broadcast like any other
statement. -/
def run_batch_insert_body (srv : ServerModel) (query : String)
    (rows : List (List String)) (requested_tag : Option String)
    (in_stored_procedure : Bool) (st : ConnState) : StepOut Unit :=
  let query_tag := effective_query_tag requested_tag in_stored_procedure
  if tag_truthy query_tag then
    match cursor_execute srv st (set_query_tag_stmt (query_tag.getD "")) with
    | ⟨.error e, st1⟩ => ⟨.error e, st1⟩
    | ⟨.ok _, st1⟩ =>
        match cursor_execute srv st1 query with
        | ⟨.error e, st2⟩ => ⟨.error e, st2⟩
        | ⟨.ok _, st2⟩ =>
            match cursor_execute srv st2 "alter session unset query_tag" with
            | ⟨.error e, st3⟩ => ⟨.error e, st3⟩
            | ⟨.ok _, st3⟩ => ⟨.ok (), st3⟩
  else
    match cursor_execute srv st query with
    | ⟨.error e, st1⟩ => ⟨.error e, st1⟩
    | ⟨.ok _, st1⟩ => ⟨.ok (), st1⟩

/-- `run_batch_insert`, as decorated with `_Decorator.wrap_exception`. -/
def run_batch_insert (srv : ServerModel) (st : ConnState) (query : String)
    (rows : List (List String)) (requested_tag : Option String)
    (in_stored_procedure : Bool) : StepOut Unit :=
  wrap_exception st
    (run_batch_insert_body srv query rows requested_tag in_stored_procedure)

/-- A statement of a plan: a plain `Query` carrying its SQL text and
`query_id_place_holder` token, or a `BatchInsertQuery` carrying its SQL text
and parameter rows. -/
inductive PlanQuery : Type
  | query (sql : String) (query_id_place_holder : String)
  | batchInsert (sql : String) (rows : List (List String))
deriving DecidableEq, Repr

/-- The slice of a `SnowflakePlan` that `get_result_set` reads: the ordered
statements and the post-action SQL texts. -/
structure SnowflakePlan where
  queries : List PlanQuery
  post_actions : List String
deriving DecidableEq, Repr

/-- The plan's session as seen by `get_result_set`: the fresh id returned by
`_generate_new_action_id()` at the start, and the value
`_get_last_canceled_id()` returns at the check after the i-th statement of
the loop. The watermark is session-wide shared state written outside this
core, hence modelled as a function of the read index. -/
structure SessionModel where
  new_action_id : Int
  last_canceled_id : Nat → Int

/-- The same session with a watermark that never triggers cancellation (every
read returns the captured action id itself, and the check is strict). -/
def noCancel (sess : SessionModel) : SessionModel :=
  ⟨sess.new_action_id, fun _ => sess.new_action_id⟩

/-- Python dict assignment `placeholders[k] = v`: overwrite in place when the
key is present (keeping insertion order), otherwise append. -/
def dict_set (d : List (String × String)) (k v : String) :
    List (String × String) :=
  if d.any (fun p => p.1 = k) then
    d.map (fun p => if p.1 = k then (k, v) else p)
  else d ++ [(k, v)]

/-- The substitution loop of `get_result_set`:
`for holder, id_ in placeholders.items(): final_query = final_query.replace(holder, id_)`. -/
def substitute_placeholders (d : List (String × String)) (sql : String) :
    String :=
  d.foldl (fun acc p => str_replace acc p.1 p.2) sql

/-- State of `get_result_set`'s statement loop at exit (normal or raising):
the outcome, the Python locals `result` and `result_meta`, and the connection
state. -/
structure LoopOut where
  res : Except PyExc Unit
  result : Option RunQueryOut
  result_meta : Option (List String)
  st : ConnState
deriving DecidableEq

/-- The statement loop of `get_result_set`: for each statement in order,
dispatch a `BatchInsertQuery` to `run_batch_insert` (no substitution, no
result binding), otherwise substitute the accumulated placeholders into the
SQL, run it, bind its placeholder to the returned `sfqid` and remember
(result, cursor description); after every statement compare the captured
action id with the watermark and raise `SERVER_QUERY_IS_CANCELLED` when
strictly below it. `i` counts loop iterations and indexes watermark reads. -/
def exec_queries (srv : ServerModel) (sess : SessionModel) (to_pandas : Bool)
    (requested_tag : Option String) (in_stored_procedure : Bool) :
    List PlanQuery → Nat → List (String × String) → Option RunQueryOut →
    Option (List String) → ConnState → LoopOut
  | [], _, _, result, result_meta, st => ⟨.ok (), result, result_meta, st⟩
  | .batchInsert sql rows :: rest, i, phs, result, result_meta, st =>
      match run_batch_insert srv st sql rows requested_tag in_stored_procedure with
      | ⟨.error e, st1⟩ => ⟨.error e, result, result_meta, st1⟩
      | ⟨.ok _, st1⟩ =>
          if sess.new_action_id < sess.last_canceled_id i then
            ⟨.error .queryCancelled, result, result_meta, st1⟩
          else
            exec_queries srv sess to_pandas requested_tag in_stored_procedure
              rest (i + 1) phs result result_meta st1
  | .query sql holder :: rest, i, phs, result, result_meta, st =>
      match run_query srv st (substitute_placeholders phs sql) to_pandas with
      | ⟨.error e, st1⟩ => ⟨.error e, result, result_meta, st1⟩
      | ⟨.ok r, st1⟩ =>
          if sess.new_action_id < sess.last_canceled_id i then
            ⟨.error .queryCancelled, some r, some st1.description, st1⟩
          else
            exec_queries srv sess to_pandas requested_tag in_stored_procedure
              rest (i + 1) (dict_set phs holder r.sfqid) (some r)
              (some st1.description) st1

/-- The `finally` block of `get_result_set`: run every post-action through
`run_query`; a post-action failure stops the remaining post-actions and
propagates (replacing any in-flight exception, as a raise inside a Python
`finally` does). -/
def run_post_actions (srv : ServerModel) : List String → ConnState → StepOut Unit
  | [], st => ⟨.ok (), st⟩
  | a :: rest, st =>
      match run_query srv st a false with
      | ⟨.error e, st1⟩ => ⟨.error e, st1⟩
      | ⟨.ok _, st1⟩ => run_post_actions srv rest st1

/-- `get_result_set`: capture the action id, run the statement loop inside
`try`, always run the post-actions (`finally`), then re-raise the loop's
exception if any, raise `SQL_LAST_QUERY_RETURN_RESULTSET` when no statement
ever bound a result, and otherwise return `(result["data"], result_meta)`.
The `**kwargs` relevant to this core are carried as `requested_tag` and
`in_stored_procedure`; the outer `SnowflakePlan.Decorator.wrap_exception` is
an external collaborator and out of scope. -/
def get_result_set (srv : ServerModel) (sess : SessionModel)
    (plan : SnowflakePlan) (to_pandas : Bool) (requested_tag : Option String)
    (in_stored_procedure : Bool) (st : ConnState) :
    StepOut (Data × Option (List String)) :=
  let L := exec_queries srv sess to_pandas requested_tag in_stored_procedure
    plan.queries 0 [] none none st
  match run_post_actions srv plan.post_actions L.st with
  | ⟨.error e, st1⟩ => ⟨.error e, st1⟩
  | ⟨.ok _, st1⟩ =>
      match L.res with
      | .error e => ⟨.error e, st1⟩
      | .ok _ =>
          match L.result with
          | none => ⟨.error .emptyResult, st1⟩
          | some r => ⟨.ok (r.data, L.result_meta), st1⟩

/-- Lookup in the `_lower_case_parameters` dict. -/
def lookup_param (params : List (String × String)) (k : String) :
    Option String :=
  (params.find? (fun p => p.1 = k)).map (fun p => p.2)

/-- `get_default_database`: quotes the configured database name when present.
The source method reads only `_lower_case_parameters` and is not decorated
with `_Decorator.wrap_exception`; the `closed` argument is the liveness of
the connection the method could have consulted but does not. `quote_name` is
the external `AnalyzerPackage.quote_name` collaborator. -/
def get_default_database (closed : Bool) (params : List (String × String))
    (quote_name : String → String) : Except PyExc (Option String) :=
  .ok ((lookup_param params "database").map quote_name)

/-- `get_session_id`: a `wrap_exception`-decorated accessor returning
`_conn.session_id`. -/
def get_session_id (st : ConnState) (session_id : Int) : StepOut Int :=
  wrap_exception st (fun st1 => ⟨.ok session_id, st1⟩)

/-- A statement text on which `run_query` (without the pandas fetch)
completes: the execute call and the row fetch both succeed. -/
def query_succeeds (srv : ServerModel) (q : String) : Bool :=
  (match srv.exec q with | .ok _ => true | .error _ => false) &&
  (match srv.rowsFetch q with | .ok _ => true | .error _ => false)

/-- Whether a plan statement is a `BatchInsertQuery`. -/
def isBatchInsert : PlanQuery → Bool
  | .batchInsert _ _ => true
  | .query _ _ => false

/-- One broadcast: the listeners-component of `notify_query_listeners`. -/
def broadcast1 (ls : List Listener) (query_record : String × String) :
    List Listener :=
  ls.map (fun l => ⟨l.lid, l.log ++ [query_record]⟩)

/-- C4: for logical name DECIMAL, or FIXED with nonzero scale,
`_get_data_type` returns decimal(38, 18) when precision and scale are both
zero; otherwise, when precision exceeds the maximum supported precision, a
decimal whose precision is the maximum and whose scale is
`scale + precision - max_scale`; otherwise decimal(precision, scale) as
given. -/
theorem C4_decimal_type_mapping (column_type_name : String)
    (precision scale : Int)
    (h : column_type_name = "DECIMAL" ∨
      (column_type_name = "FIXED" ∧ scale ≠ 0)) :
    _get_data_type column_type_name precision scale =
      (if precision = 0 ∧ scale = 0 then .ok (.DecimalType 38 18)
       else if precision > DecimalType_MAX_PRECISION then
         .ok (.DecimalType DecimalType_MAX_PRECISION
           (scale + precision - DecimalType_MAX_SCALE))
       else .ok (.DecimalType precision scale)) := by
  have hne : ¬(precision = 0 ∧ scale = 0) ↔ (precision ≠ 0 ∨ scale ≠ 0) := by
    tauto
  rcases h with h | h
  · subst h
    by_cases h0 : precision = 0 ∧ scale = 0
    · simp [_get_data_type, h0, h0.1, h0.2]
    · rw [if_neg h0]
      have h1 : precision ≠ 0 ∨ scale ≠ 0 := hne.mp h0
      by_cases h2 : precision > DecimalType_MAX_PRECISION
      · simp [_get_data_type, h1, h2]
      · simp [_get_data_type, h1, h2]
  · rcases h with ⟨hn, hs⟩
    subst hn
    have h0 : ¬(precision = 0 ∧ scale = 0) := by tauto
    rw [if_neg h0]
    have h1 : precision ≠ 0 ∨ scale ≠ 0 := Or.inr hs
    by_cases h2 : precision > DecimalType_MAX_PRECISION
    · simp [_get_data_type, hs, h1, h2]
    · simp [_get_data_type, hs, h1, h2]

/-- Witness for C4: evaluating `_get_data_type` through the theorem at the
default case (0, 0), the overflow case (40, 5), and the pass-through case
(10, 2). -/
theorem C4_decimal_type_mapping_witness :
    _get_data_type "DECIMAL" 0 0 = .ok (.DecimalType 38 18) ∧
    _get_data_type "FIXED" 40 5 = .ok (.DecimalType 38 7) ∧
    _get_data_type "DECIMAL" 10 2 = .ok (.DecimalType 10 2) := by
  refine ⟨?_, ?_, ?_⟩
  · have h := C4_decimal_type_mapping "DECIMAL" 0 0 (Or.inl rfl)
    simpa using h
  · have h := C4_decimal_type_mapping "FIXED" 40 5 (Or.inr ⟨rfl, by decide⟩)
    simpa [DecimalType_MAX_PRECISION, DecimalType_MAX_SCALE] using h
  · have h := C4_decimal_type_mapping "DECIMAL" 10 2 (Or.inl rfl)
    simpa [DecimalType_MAX_PRECISION] using h

/-- The state `wrap_exception` leaves: untouched on the fast-fail path,
otherwise the body's state (the translation only renames the exception). -/
theorem wrap_exception_st {α : Type} (st : ConnState)
    (body : ConnState → StepOut α) :
    (wrap_exception st body).st = if st.closed then st else (body st).st := by
  unfold wrap_exception
  split
  · rfl
  · split
    · next _ heq => rw [heq]
    · rfl

/-- `cursor_execute` never changes liveness. -/
theorem cursor_execute_closed (srv : ServerModel) (st : ConnState)
    (q : String) : (cursor_execute srv st q).st.closed = st.closed := by
  rcases h : srv.exec q with e | cur <;>
    simp [cursor_execute, notify_query_listeners, h]

/-- `cursor_execute` traces exactly the attempted statement text. -/
theorem cursor_execute_execLog (srv : ServerModel) (st : ConnState)
    (q : String) : (cursor_execute srv st q).st.execLog = st.execLog ++ [q] := by
  rcases h : srv.exec q with e | cur <;>
    simp [cursor_execute, notify_query_listeners, h]

/-- Whatever the fetch outcome, `run_query_body` ends in the state
`cursor_execute` left. -/
theorem run_query_body_st (srv : ServerModel) (q : String) (tp : Bool)
    (st : ConnState) :
    (run_query_body srv q tp st).st = (cursor_execute srv st q).st := by
  unfold run_query_body
  rcases h : cursor_execute srv st q with ⟨r, st1⟩
  cases r with
  | error e => rfl
  | ok cur =>
      cases tp with
      | false => cases srv.rowsFetch q <;> rfl
      | true =>
          cases srv.pandasFetch q with
          | ok d => rfl
          | notSupported => cases srv.rowsFetch q <;> rfl
          | otherError m => rfl

/-- `run_query` never changes liveness. -/
theorem run_query_closed (srv : ServerModel) (st : ConnState) (q : String)
    (tp : Bool) : (run_query srv st q tp).st.closed = st.closed := by
  rw [run_query, wrap_exception_st]
  split
  · rfl
  · rw [run_query_body_st, cursor_execute_closed]

/-- `run_batch_insert_body` never changes liveness. -/
theorem run_batch_insert_body_closed (srv : ServerModel) (q : String)
    (rows : List (List String)) (tag : Option String) (sp : Bool)
    (st : ConnState) :
    (run_batch_insert_body srv q rows tag sp st).st.closed = st.closed := by
  simp only [run_batch_insert_body]
  by_cases ht : tag_truthy (effective_query_tag tag sp) = true
  · simp only [ht, if_true]
    split
    · next e s1 heq =>
        have h := cursor_execute_closed srv st
          (set_query_tag_stmt ((effective_query_tag tag sp).getD ""))
        rw [heq] at h; exact h
    · next c1 s1 heq =>
        have e1 : s1.closed = st.closed := by
          have h := cursor_execute_closed srv st
            (set_query_tag_stmt ((effective_query_tag tag sp).getD ""))
          rw [heq] at h; exact h
        split
        · next e s2 heq2 =>
            have h := cursor_execute_closed srv s1 q
            rw [heq2] at h; exact h.trans e1
        · next c2 s2 heq2 =>
            have e2 : s2.closed = s1.closed := by
              have h := cursor_execute_closed srv s1 q
              rw [heq2] at h; exact h
            split
            · next e s3 heq3 =>
                have h := cursor_execute_closed srv s2
                  "alter session unset query_tag"
                rw [heq3] at h; exact (h.trans e2).trans e1
            · next c3 s3 heq3 =>
                have h := cursor_execute_closed srv s2
                  "alter session unset query_tag"
                rw [heq3] at h; exact (h.trans e2).trans e1
  · simp only [if_neg ht]
    split
    · next e s1 heq =>
        have h := cursor_execute_closed srv st q
        rw [heq] at h; exact h
    · next c1 s1 heq =>
        have h := cursor_execute_closed srv st q
        rw [heq] at h; exact h

/-- `run_batch_insert` never changes liveness. -/
theorem run_batch_insert_closed (srv : ServerModel) (st : ConnState)
    (q : String) (rows : List (List String)) (tag : Option String)
    (sp : Bool) : (run_batch_insert srv st q rows tag sp).st.closed = st.closed := by
  rw [run_batch_insert, wrap_exception_st]
  split
  · rfl
  · rw [run_batch_insert_body_closed]

/-- The statement loop never changes liveness. -/
theorem exec_queries_closed (srv : ServerModel) (sess : SessionModel)
    (tp : Bool) (tag : Option String) (sp : Bool) :
    ∀ (qs : List PlanQuery) (i : Nat) (phs : List (String × String))
      (result : Option RunQueryOut) (result_meta : Option (List String))
      (st : ConnState),
      (exec_queries srv sess tp tag sp qs i phs result result_meta st).st.closed
        = st.closed := by
  intro qs
  induction qs with
  | nil => intro i phs result result_meta st; rfl
  | cons q rest ih =>
      intro i phs result result_meta st
      cases q with
      | batchInsert sql rows =>
          rcases hb : run_batch_insert srv st sql rows tag sp with ⟨br, bst⟩
          have ebc : bst.closed = st.closed := by
            have := run_batch_insert_closed srv st sql rows tag sp
            rw [hb] at this; exact this
          cases br with
          | error e => simp [exec_queries, hb, ebc]
          | ok u =>
              simp only [exec_queries, hb]
              split
              · exact ebc
              · rw [ih]; exact ebc
      | query sql holder =>
          rcases hq : run_query srv st (substitute_placeholders phs sql) tp
            with ⟨qr, qst⟩
          have eqc : qst.closed = st.closed := by
            have := run_query_closed srv st (substitute_placeholders phs sql) tp
            rw [hq] at this; exact this
          cases qr with
          | error e => simp [exec_queries, hq, eqc]
          | ok r =>
              simp only [exec_queries, hq]
              split
              · exact eqc
              · rw [ih]; exact eqc

/-- Shape of a successful `run_query` without pandas fetch on a live
connection: the result is the fetched data with the cursor's statement id,
and the state gains the trace entry, the description, and one broadcast. -/
theorem run_query_false_ok (srv : ServerModel) (st : ConnState) (q : String)
    (cur : CursorResult) (d : Data) (hc : st.closed = false)
    (he : srv.exec q = .ok cur) (hf : srv.rowsFetch q = .ok d) :
    run_query srv st q false =
      ⟨.ok ⟨d, cur.sfqid⟩,
        notify_query_listeners
          { st with execLog := st.execLog ++ [q], description := cur.description }
          (cur.sfqid, q)⟩ := by
  simp [run_query, wrap_exception, run_query_body, cursor_execute, hc, he, hf]

/-- When every post-action's execute and row fetch succeed on a live
connection, the `finally` loop completes, stays live, and traces each
post-action exactly once, in order. -/
theorem run_post_actions_ok (srv : ServerModel) :
    ∀ (acts : List String) (st : ConnState), st.closed = false →
      (∀ a ∈ acts, query_succeeds srv a = true) →
      (run_post_actions srv acts st).res = .ok () ∧
      (run_post_actions srv acts st).st.closed = false ∧
      (run_post_actions srv acts st).st.execLog = st.execLog ++ acts := by
  intro acts
  induction acts with
  | nil =>
      intro st hc _
      exact ⟨rfl, hc, by simp [run_post_actions]⟩
  | cons a rest ih =>
      intro st hc hall
      have hs := hall a (List.mem_cons_self a rest)
      obtain ⟨cur, he⟩ : ∃ cur, srv.exec a = .ok cur := by
        unfold query_succeeds at hs
        rcases h : srv.exec a with e | cur
        · rw [h] at hs; simp at hs
        · exact ⟨cur, rfl⟩
      obtain ⟨d, hf⟩ : ∃ d, srv.rowsFetch a = .ok d := by
        unfold query_succeeds at hs
        rcases h : srv.rowsFetch a with e | d
        · rw [h] at hs; simp at hs
        · exact ⟨d, rfl⟩
      simp only [run_post_actions]
      rw [run_query_false_ok srv st a cur d hc he hf]
      have hc1 : (notify_query_listeners
          { st with execLog := st.execLog ++ [a], description := cur.description }
          (cur.sfqid, a)).closed = false := by
        simp [notify_query_listeners, hc]
      have key := ih (notify_query_listeners
          { st with execLog := st.execLog ++ [a], description := cur.description }
          (cur.sfqid, a)) hc1
        (fun b hb => hall b (List.mem_cons_of_mem a hb))
      refine ⟨key.1, key.2.1, ?_⟩
      exact key.2.2.trans (by simp [notify_query_listeners])

/-- Cancellation cuts the loop at the first triggering watermark read: if the
reads before `k` do not trigger, the read after statement `k` does, and the
first `k + 1` statements run to completion (witnessed by the same loop under a
never-triggering watermark), then the full loop equals that prefix run except
that it raises `SERVER_QUERY_IS_CANCELLED` — in particular the statements
after `k` leave no trace. -/
theorem exec_queries_cancel_aux (srv : ServerModel) (sess : SessionModel)
    (tp : Bool) (tag : Option String) (sp : Bool) :
    ∀ (k : Nat) (qs : List PlanQuery) (i : Nat) (phs : List (String × String))
      (result : Option RunQueryOut) (result_meta : Option (List String))
      (st : ConnState),
      k < qs.length →
      (∀ j, j < k → ¬ sess.new_action_id < sess.last_canceled_id (i + j)) →
      sess.new_action_id < sess.last_canceled_id (i + k) →
      (exec_queries srv (noCancel sess) tp tag sp (qs.take (k + 1)) i phs
        result result_meta st).res = .ok () →
      exec_queries srv sess tp tag sp qs i phs result result_meta st =
        { exec_queries srv (noCancel sess) tp tag sp (qs.take (k + 1)) i phs
            result result_meta st with res := .error .queryCancelled } := by
  intro k
  induction k with
  | zero =>
      intro qs i phs result result_meta st hlen hpre htrig hok
      cases qs with
      | nil => simp at hlen
      | cons q rest =>
          have htr : sess.new_action_id < sess.last_canceled_id i := by
            simpa using htrig
          rw [List.take_succ_cons, List.take_zero] at hok ⊢
          cases q with
          | batchInsert sql rows =>
              rcases hb : run_batch_insert srv st sql rows tag sp with ⟨br, bst⟩
              cases br with
              | error e => simp [exec_queries, hb] at hok
              | ok u => simp [exec_queries, hb, noCancel, htr]
          | query sql holder =>
              rcases hq : run_query srv st (substitute_placeholders phs sql) tp
                with ⟨qr, qst⟩
              cases qr with
              | error e => simp [exec_queries, hq] at hok
              | ok r => simp [exec_queries, hq, noCancel, htr]
  | succ k ih =>
      intro qs i phs result result_meta st hlen hpre htrig hok
      cases qs with
      | nil => simp at hlen
      | cons q rest =>
          have hlen1 : k < rest.length := by
            simpa using Nat.lt_of_succ_lt_succ hlen
          have hni : ¬ sess.new_action_id < sess.last_canceled_id i := by
            simpa using hpre 0 (Nat.succ_pos k)
          have hpre1 : ∀ j, j < k →
              ¬ sess.new_action_id < sess.last_canceled_id (i + 1 + j) := by
            intro j hj
            have h := hpre (j + 1) (Nat.succ_lt_succ hj)
            rwa [show i + (j + 1) = i + 1 + j by omega] at h
          have htrig1 : sess.new_action_id < sess.last_canceled_id (i + 1 + k) := by
            rwa [show i + (k + 1) = i + 1 + k by omega] at htrig
          rw [List.take_succ_cons] at hok ⊢
          cases q with
          | batchInsert sql rows =>
              rcases hb : run_batch_insert srv st sql rows tag sp with ⟨br, bst⟩
              cases br with
              | error e => simp [exec_queries, hb] at hok
              | ok u =>
                  simp only [exec_queries, hb, noCancel] at hok ⊢
                  rw [if_neg hni]
                  simp only [if_neg (lt_irrefl sess.new_action_id)] at hok ⊢
                  exact ih rest (i + 1) phs result result_meta bst hlen1 hpre1
                    htrig1 hok
          | query sql holder =>
              rcases hq : run_query srv st (substitute_placeholders phs sql) tp
                with ⟨qr, qst⟩
              cases qr with
              | error e => simp [exec_queries, hq] at hok
              | ok r =>
                  simp only [exec_queries, hq, noCancel] at hok ⊢
                  rw [if_neg hni]
                  simp only [if_neg (lt_irrefl sess.new_action_id)] at hok ⊢
                  exact ih rest (i + 1) (dict_set phs holder r.sfqid) (some r)
                    (some qst.description) qst hlen1 hpre1 htrig1 hok

/-- A loop over batch-insert statements only never binds `result`: the batch
branch of `get_result_set` neither assigns `result` nor records a
placeholder. -/
theorem exec_queries_batch_result (srv : ServerModel) (sess : SessionModel)
    (tp : Bool) (tag : Option String) (sp : Bool) :
    ∀ (qs : List PlanQuery) (i : Nat) (phs : List (String × String))
      (result : Option RunQueryOut) (result_meta : Option (List String))
      (st : ConnState),
      (∀ q ∈ qs, isBatchInsert q = true) →
      (exec_queries srv sess tp tag sp qs i phs result result_meta st).result
        = result := by
  intro qs
  induction qs with
  | nil => intro i phs result result_meta st _; rfl
  | cons q rest ih =>
      intro i phs result result_meta st hall
      cases q with
      | query sql holder =>
          have h := hall (.query sql holder) (List.mem_cons_self _ _)
          simp [isBatchInsert] at h
      | batchInsert sql rows =>
          rcases hb : run_batch_insert srv st sql rows tag sp with ⟨br, bst⟩
          cases br with
          | error e => simp [exec_queries, hb]
          | ok u =>
              simp only [exec_queries, hb]
              split
              · rfl
              · exact ih (i + 1) phs result result_meta bst
                  (fun b hb2 => hall b (List.mem_cons_of_mem _ hb2))

/-- C1: every post-action is executed exactly once on every exit path from
the statement loop — normal completion, a raising statement, or cancellation
(the loop outcome is unconstrained here) — and when the loop raised, that
error is what `get_result_set` raises, unless a post-action itself fails, in
which case the post-action's error is the terminal one (the `finally` raise
replaces the in-flight exception). -/
theorem C1_guaranteed_cleanup (srv : ServerModel) (sess : SessionModel)
    (plan : SnowflakePlan) (tp : Bool) (tag : Option String) (sp : Bool)
    (st : ConnState) (hc : st.closed = false) :
    ((∀ a ∈ plan.post_actions, query_succeeds srv a = true) →
      (get_result_set srv sess plan tp tag sp st).st.execLog =
        (exec_queries srv sess tp tag sp plan.queries 0 [] none none st).st.execLog
          ++ plan.post_actions ∧
      ∀ e, (exec_queries srv sess tp tag sp plan.queries 0 [] none none st).res
          = .error e →
        (get_result_set srv sess plan tp tag sp st).res = .error e) ∧
    (∀ e, (run_post_actions srv plan.post_actions
        (exec_queries srv sess tp tag sp plan.queries 0 [] none none st).st).res
          = .error e →
      (get_result_set srv sess plan tp tag sp st).res = .error e) := by
  have hcl := exec_queries_closed srv sess tp tag sp plan.queries 0 [] none none st
  simp only [get_result_set]
  rcases hL : exec_queries srv sess tp tag sp plan.queries 0 [] none none st
    with ⟨lres, lresult, lmeta, lst⟩
  rw [hL] at hcl
  have hLc : lst.closed = false := hcl.trans hc
  constructor
  · intro hpost
    obtain ⟨p1, p2, p3⟩ := run_post_actions_ok srv plan.post_actions lst hLc hpost
    rcases hpa : run_post_actions srv plan.post_actions lst with ⟨pres, pst⟩
    rw [hpa] at p1 p3
    simp only at p1 p3
    subst p1
    constructor
    · cases lres with
      | error e => simpa using p3
      | ok u =>
          cases lresult with
          | none => simpa using p3
          | some r => simpa using p3
    · intro e he
      subst he
      simp
  · intro e hpe
    rcases hpa : run_post_actions srv plan.post_actions lst with ⟨pres, pst⟩
    rw [hpa] at hpe
    simp only at hpe
    subst hpe
    simp

/-- Shape of `get_result_set` when every post-action succeeds on a live
connection: the post-actions are traced once each after the loop's trace; a
loop exception re-raises; a completed loop without a bound result raises
`SQL_LAST_QUERY_RETURN_RESULTSET`. -/
theorem get_result_set_post_ok (srv : ServerModel) (sess : SessionModel)
    (plan : SnowflakePlan) (tp : Bool) (tag : Option String) (sp : Bool)
    (st : ConnState) (hc : st.closed = false)
    (hpost : ∀ a ∈ plan.post_actions, query_succeeds srv a = true) :
    (get_result_set srv sess plan tp tag sp st).st.execLog =
      (exec_queries srv sess tp tag sp plan.queries 0 [] none none st).st.execLog
        ++ plan.post_actions ∧
    (∀ e, (exec_queries srv sess tp tag sp plan.queries 0 [] none none st).res
        = .error e →
      (get_result_set srv sess plan tp tag sp st).res = .error e) ∧
    ((exec_queries srv sess tp tag sp plan.queries 0 [] none none st).res
        = .ok () →
      (exec_queries srv sess tp tag sp plan.queries 0 [] none none st).result
        = none →
      (get_result_set srv sess plan tp tag sp st).res = .error .emptyResult) := by
  have hcl := exec_queries_closed srv sess tp tag sp plan.queries 0 [] none none st
  simp only [get_result_set]
  rcases hL : exec_queries srv sess tp tag sp plan.queries 0 [] none none st
    with ⟨lres, lresult, lmeta, lst⟩
  rw [hL] at hcl
  have hLc : lst.closed = false := hcl.trans hc
  obtain ⟨p1, p2, p3⟩ := run_post_actions_ok srv plan.post_actions lst hLc hpost
  rcases hpa : run_post_actions srv plan.post_actions lst with ⟨pres, pst⟩
  rw [hpa] at p1 p3
  simp only at p1 p3
  subst p1
  refine ⟨?_, ?_, ?_⟩
  · cases lres with
    | error e => simpa using p3
    | ok u =>
        cases lresult with
        | none => simpa using p3
        | some r => simpa using p3
  · intro e he
    subst he
    simp
  · intro hok hnone
    subst hok
    subst hnone
    simp

/-- Concrete server for witnesses: statement "s2" fails with a generic
transport error; every other statement executes with id "123" and fetches no
rows. -/
def srvBoom : ServerModel :=
  { exec := fun q => if q = "s2" then .error (.generic "boom") else .ok ⟨"123", []⟩
    pandasFetch := fun _ => .notSupported
    rowsFetch := fun _ => .ok [] }

/-- Concrete live connection with one registered listener and empty logs. -/
def st0 : ConnState := ⟨false, [⟨1, []⟩], [], []⟩

/-- Session whose watermark stays below the captured action id. -/
def sessQuiet : SessionModel := ⟨1, fun _ => 0⟩

/-- Session whose watermark is already above the captured action id at the
first read. -/
def sessCancel : SessionModel := ⟨1, fun _ => 2⟩

/-- Witness for C1: on a two-statement plan whose second statement raises,
both post-actions still run exactly once and the statement's error is the
terminal one. -/
theorem C1_guaranteed_cleanup_witness :
    (get_result_set srvBoom sessQuiet
      ⟨[.query "s1" "T1", .query "s2" "T2"], ["p1", "p2"]⟩
      false none false st0).res = .error (.generic "boom") ∧
    (get_result_set srvBoom sessQuiet
      ⟨[.query "s1" "T1", .query "s2" "T2"], ["p1", "p2"]⟩
      false none false st0).st.execLog = ["s1", "s2", "p1", "p2"] := by
  have h := (C1_guaranteed_cleanup srvBoom sessQuiet
    ⟨[.query "s1" "T1", .query "s2" "T2"], ["p1", "p2"]⟩
    false none false st0 rfl).1 (by decide)
  refine ⟨h.2 (.generic "boom") (by decide), ?_⟩
  rw [h.1]
  decide

/-- C2: when the watermark read after statement `k` is strictly above the
captured action id (and no earlier read triggered, and statements up to `k`
complete), no later statement of the plan executes — the trace equals the
prefix run's trace plus the post-actions — the post-actions still execute,
and `SERVER_QUERY_IS_CANCELLED` is raised. -/
theorem C2_cancellation (srv : ServerModel) (sess : SessionModel)
    (plan : SnowflakePlan) (tp : Bool) (tag : Option String) (sp : Bool)
    (st : ConnState) (k : Nat) (hc : st.closed = false)
    (hlen : k < plan.queries.length)
    (hpre : ∀ j, j < k → ¬ sess.new_action_id < sess.last_canceled_id j)
    (htrig : sess.new_action_id < sess.last_canceled_id k)
    (hok : (exec_queries srv (noCancel sess) tp tag sp
        (plan.queries.take (k + 1)) 0 [] none none st).res = .ok ())
    (hpost : ∀ a ∈ plan.post_actions, query_succeeds srv a = true) :
    (get_result_set srv sess plan tp tag sp st).res = .error .queryCancelled ∧
    (get_result_set srv sess plan tp tag sp st).st.execLog =
      (exec_queries srv (noCancel sess) tp tag sp (plan.queries.take (k + 1))
        0 [] none none st).st.execLog ++ plan.post_actions := by
  have hcut := exec_queries_cancel_aux srv sess tp tag sp k plan.queries 0 []
    none none st hlen (by simpa using hpre) (by simpa using htrig) hok
  have hres : (exec_queries srv sess tp tag sp plan.queries 0 [] none none st).res
      = .error .queryCancelled := by rw [hcut]
  have hst : (exec_queries srv sess tp tag sp plan.queries 0 [] none none st).st
      = (exec_queries srv (noCancel sess) tp tag sp (plan.queries.take (k + 1))
        0 [] none none st).st := by rw [hcut]
  obtain ⟨g1, g2, _⟩ := get_result_set_post_ok srv sess plan tp tag sp st hc hpost
  exact ⟨g2 .queryCancelled hres, by rw [g1, hst]⟩

/-- Witness for C2: the watermark triggers right after statement 1 of a
two-statement plan; statement "s2" never executes (it would have failed), the
post-action runs, and the result is the cancellation error. -/
theorem C2_cancellation_witness :
    (get_result_set srvBoom sessCancel
      ⟨[.query "s1" "T1", .query "s2" "T2"], ["p1"]⟩
      false none false st0).res = .error .queryCancelled ∧
    (get_result_set srvBoom sessCancel
      ⟨[.query "s1" "T1", .query "s2" "T2"], ["p1"]⟩
      false none false st0).st.execLog = ["s1", "p1"] := by
  have h := C2_cancellation srvBoom sessCancel
    ⟨[.query "s1" "T1", .query "s2" "T2"], ["p1"]⟩
    false none false st0 0 rfl (by decide)
    (fun j hj => absurd hj (Nat.not_lt_zero j)) (by decide) (by decide) (by decide)
  refine ⟨h.1, ?_⟩
  rw [h.2]
  decide

/-- C5: when the loop completes without ever binding a result (zero
result-bearing statements), `get_result_set` raises
`SQL_LAST_QUERY_RETURN_RESULTSET`, and only after all post-actions ran (they
appear in the trace before the error is raised). -/
theorem C5_empty_result (srv : ServerModel) (sess : SessionModel)
    (plan : SnowflakePlan) (tp : Bool) (tag : Option String) (sp : Bool)
    (st : ConnState) (hc : st.closed = false)
    (hok : (exec_queries srv sess tp tag sp plan.queries 0 [] none none st).res
      = .ok ())
    (hnone : (exec_queries srv sess tp tag sp plan.queries 0 [] none none
      st).result = none)
    (hpost : ∀ a ∈ plan.post_actions, query_succeeds srv a = true) :
    (get_result_set srv sess plan tp tag sp st).res = .error .emptyResult ∧
    (get_result_set srv sess plan tp tag sp st).st.execLog =
      (exec_queries srv sess tp tag sp plan.queries 0 [] none none st).st.execLog
        ++ plan.post_actions := by
  obtain ⟨g1, _, g3⟩ := get_result_set_post_ok srv sess plan tp tag sp st hc hpost
  exact ⟨g3 hok hnone, g1⟩

/-- Witness for C5: a plan with no statements and one post-action raises the
empty-result error after running the post-action. -/
theorem C5_empty_result_witness :
    (get_result_set srvBoom sessQuiet ⟨[], ["p1"]⟩ false none false st0).res
      = .error .emptyResult ∧
    (get_result_set srvBoom sessQuiet ⟨[], ["p1"]⟩ false none false
      st0).st.execLog = ["p1"] := by
  have h := C5_empty_result srvBoom sessQuiet ⟨[], ["p1"]⟩ false none false st0
    rfl rfl rfl (by decide)
  refine ⟨h.1, ?_⟩
  rw [h.2]
  decide

/-- C9: a plan whose statements are all batch inserts never binds a result —
the batch branch binds neither `result` nor a placeholder — so even when
every batch insert succeeds (the loop completes normally), `get_result_set`
raises the empty-result error, after running the post-actions. -/
theorem C9_batch_only_empty_result (srv : ServerModel) (sess : SessionModel)
    (plan : SnowflakePlan) (tp : Bool) (tag : Option String) (sp : Bool)
    (st : ConnState) (hc : st.closed = false)
    (hbatch : ∀ q ∈ plan.queries, isBatchInsert q = true)
    (hok : (exec_queries srv sess tp tag sp plan.queries 0 [] none none st).res
      = .ok ())
    (hpost : ∀ a ∈ plan.post_actions, query_succeeds srv a = true) :
    (exec_queries srv sess tp tag sp plan.queries 0 [] none none st).result
      = none ∧
    (get_result_set srv sess plan tp tag sp st).res = .error .emptyResult ∧
    (get_result_set srv sess plan tp tag sp st).st.execLog =
      (exec_queries srv sess tp tag sp plan.queries 0 [] none none st).st.execLog
        ++ plan.post_actions := by
  have hnone := exec_queries_batch_result srv sess tp tag sp plan.queries 0 []
    none none st hbatch
  obtain ⟨g1, _, g3⟩ := get_result_set_post_ok srv sess plan tp tag sp st hc hpost
  exact ⟨hnone, g3 hok hnone, g1⟩

/-- Witness for C9: a plan of one successful batch insert and one post-action
raises the empty-result error with both statements traced. -/
theorem C9_batch_only_empty_result_witness :
    (get_result_set srvBoom sessQuiet ⟨[.batchInsert "ins" [["1"]]], ["p1"]⟩
      false none false st0).res = .error .emptyResult ∧
    (get_result_set srvBoom sessQuiet ⟨[.batchInsert "ins" [["1"]]], ["p1"]⟩
      false none false st0).st.execLog = ["ins", "p1"] := by
  have h := C9_batch_only_empty_result srvBoom sessQuiet
    ⟨[.batchInsert "ins" [["1"]]], ["p1"]⟩ false none false st0 rfl
    (by decide) (by decide) (by decide)
  refine ⟨h.2.1, ?_⟩
  rw [h.2.2]
  decide

/-- On a live connection, `run_query` always traces exactly the attempted
statement text (whether or not the statement succeeds). -/
theorem run_query_execLog (srv : ServerModel) (st : ConnState) (q : String)
    (tp : Bool) (hc : st.closed = false) :
    (run_query srv st q tp).st.execLog = st.execLog ++ [q] := by
  rw [run_query, wrap_exception_st, if_neg (by simp [hc]), run_query_body_st,
    cursor_execute_execLog]

/-- On a live connection and with no query tag requested, `run_batch_insert`
traces exactly the insert statement text. -/
theorem run_batch_insert_notag_execLog (srv : ServerModel) (st : ConnState)
    (b : String) (rows : List (List String)) (sp : Bool)
    (hc : st.closed = false) :
    (run_batch_insert srv st b rows none sp).st.execLog = st.execLog ++ [b] := by
  rw [run_batch_insert, wrap_exception_st, if_neg (by simp [hc])]
  simp only [run_batch_insert_body, effective_query_tag, ite_self]
  rw [if_neg (by simp [tag_truthy])]
  split
  · next e s1 heq =>
      have h := cursor_execute_execLog srv st b
      rw [heq] at h; exact h
  · next c1 s1 heq =>
      have h := cursor_execute_execLog srv st b
      rw [heq] at h; exact h

/-- A one-query loop ends in whatever state its `run_query` left (success,
failure and cancellation agree on the state). -/
theorem exec_queries_single_query_st (srv : ServerModel) (sess : SessionModel)
    (tp : Bool) (tag : Option String) (sp : Bool) (sql holder : String)
    (i : Nat) (phs : List (String × String)) (result : Option RunQueryOut)
    (result_meta : Option (List String)) (st : ConnState) :
    (exec_queries srv sess tp tag sp [.query sql holder] i phs result
      result_meta st).st
      = (run_query srv st (substitute_placeholders phs sql) tp).st := by
  simp only [exec_queries]
  split
  · next e st1 heq => rw [heq]
  · next r st1 heq => rw [heq]; split <;> rfl

/-- A one-batch-insert loop ends in whatever state its `run_batch_insert`
left. -/
theorem exec_queries_single_batch_st (srv : ServerModel) (sess : SessionModel)
    (tp : Bool) (tag : Option String) (sp : Bool) (sql : String)
    (rows : List (List String)) (i : Nat) (phs : List (String × String))
    (result : Option RunQueryOut) (result_meta : Option (List String))
    (st : ConnState) :
    (exec_queries srv sess tp tag sp [.batchInsert sql rows] i phs result
      result_meta st).st
      = (run_batch_insert srv st sql rows tag sp).st := by
  simp only [exec_queries]
  split
  · next e st1 heq => rw [heq]
  · next u st1 heq => rw [heq]; split <;> rfl

/-- Concrete server for witnesses: every statement succeeds with statement id
"123" and fetches no rows. -/
def srvId : ServerModel :=
  { exec := fun _ => .ok ⟨"123", []⟩
    pandasFetch := fun _ => .notSupported
    rowsFetch := fun _ => .ok [] }

/-- Counterexample to C3: in a plan whose first statement tags token "T1" and
returns id "123", a following batch-insert statement mentioning "T1" is
executed with its original text — the placeholder substitution that would
have produced "insert into 123" is not applied before branching on the
statement kind. -/
theorem C3_counterexample :
    (exec_queries srvId sessQuiet false none false
      [.query "s1" "T1", .batchInsert "insert into T1" []] 0 [] none none
      st0).st.execLog = ["s1", "insert into T1"] ∧
    str_replace "insert into T1" "T1" "123" = "insert into 123" ∧
    "insert into T1" ≠ "insert into 123" := by
  refine ⟨by decide, by decide, by decide⟩

/-- C3 (amended): the substitution — every occurrence of an earlier
statement's placeholder token replaced by that statement's returned id, no
other text altered — is applied to each non-batch statement; a batch-insert
statement is executed with its SQL text unaltered. Stated on a two-statement
plan: after statement `s1` (token `t1`) returns `cur.sfqid`, a following
plain statement `s2` executes as `str_replace s2 t1 cur.sfqid`, while a
following batch insert `b` executes verbatim. -/
theorem C3_placeholder_substitution (srv : ServerModel) (sess : SessionModel)
    (st : ConnState) (s1 t1 s2 t2 b : String) (rows : List (List String))
    (cur : CursorResult) (d : Data) (hc : st.closed = false)
    (he : srv.exec s1 = .ok cur) (hf : srv.rowsFetch s1 = .ok d)
    (hnc : ¬ sess.new_action_id < sess.last_canceled_id 0) :
    (exec_queries srv sess false none false [.query s1 t1, .query s2 t2] 0 []
      none none st).st.execLog =
      st.execLog ++ [s1, str_replace s2 t1 cur.sfqid] ∧
    (exec_queries srv sess false none false [.query s1 t1, .batchInsert b rows]
      0 [] none none st).st.execLog = st.execLog ++ [s1, b] := by
  have hsub1 : substitute_placeholders [] s1 = s1 := rfl
  have hsub2 : substitute_placeholders (dict_set [] t1 cur.sfqid) s2
      = str_replace s2 t1 cur.sfqid := by
    simp [dict_set, substitute_placeholders]
  have hcN : (notify_query_listeners
      { st with execLog := st.execLog ++ [s1], description := cur.description }
      (cur.sfqid, s1)).closed = false := by
    simp [notify_query_listeners, hc]
  have hlogN : (notify_query_listeners
      { st with execLog := st.execLog ++ [s1], description := cur.description }
      (cur.sfqid, s1)).execLog = st.execLog ++ [s1] := by
    simp [notify_query_listeners]
  constructor
  · simp only [exec_queries, hsub1, run_query_false_ok srv st s1 cur d hc he hf]
    rw [if_neg hnc]
    split
    · next e st1 heq =>
        have h := run_query_execLog srv _
          (substitute_placeholders (dict_set [] t1 cur.sfqid) s2) false hcN
        rw [heq] at h
        show st1.execLog = st.execLog ++ [s1, str_replace s2 t1 cur.sfqid]
        rw [h, hsub2, hlogN]
        simp
    · next r st1 heq =>
        have h := run_query_execLog srv _
          (substitute_placeholders (dict_set [] t1 cur.sfqid) s2) false hcN
        rw [heq] at h
        have hfin : st1.execLog = st.execLog ++ [s1, str_replace s2 t1 cur.sfqid] := by
          rw [h, hsub2, hlogN]
          simp
        split
        · exact hfin
        · exact hfin
  · simp only [exec_queries, hsub1, run_query_false_ok srv st s1 cur d hc he hf]
    rw [if_neg hnc]
    split
    · next e st1 heq =>
        have h := run_batch_insert_notag_execLog srv _ b rows false hcN
        rw [heq] at h
        show st1.execLog = st.execLog ++ [s1, b]
        rw [h, hlogN]
        simp
    · next u st1 heq =>
        have h := run_batch_insert_notag_execLog srv _ b rows false hcN
        rw [heq] at h
        have hfin : st1.execLog = st.execLog ++ [s1, b] := by
          rw [h, hlogN]
          simp
        split
        · exact hfin
        · exact hfin

/-- Witness for C3 (amended): token "T1" is replaced everywhere in the second
plain statement by the returned id "123", while the batch-insert text keeps
"T1". -/
theorem C3_placeholder_substitution_witness :
    (exec_queries srvId sessQuiet false none false
      [.query "s1" "T1", .query "go T1 x T1" "T2"] 0 [] none none
      st0).st.execLog = ["s1", "go 123 x 123"] ∧
    (exec_queries srvId sessQuiet false none false
      [.query "s1" "T1", .batchInsert "b T1" []] 0 [] none none
      st0).st.execLog = ["s1", "b T1"] := by
  have h := C3_placeholder_substitution srvId sessQuiet st0 "s1" "T1"
    "go T1 x T1" "T2" "b T1" [] ⟨"123", []⟩ [] rfl rfl rfl (by decide)
  refine ⟨?_, ?_⟩
  · rw [h.1]; decide
  · rw [h.2]; decide

/-- On a live connection, a `run_query` whose execute succeeds broadcasts
exactly one record — (statement id, statement text) — to every registered
listener, whatever the later fetch does. -/
theorem run_query_listeners_ok (srv : ServerModel) (st : ConnState)
    (q : String) (tp : Bool) (cur : CursorResult) (hc : st.closed = false)
    (he : srv.exec q = .ok cur) :
    (run_query srv st q tp).st.listeners = broadcast1 st.listeners (cur.sfqid, q) := by
  rw [run_query, wrap_exception_st, if_neg (by simp [hc]), run_query_body_st]
  simp [cursor_execute, he, notify_query_listeners, broadcast1]

/-- A `run_query` whose execute fails broadcasts nothing. -/
theorem run_query_listeners_execfail (srv : ServerModel) (st : ConnState)
    (q : String) (tp : Bool) (e : PyExc) (he : srv.exec q = .error e) :
    (run_query srv st q tp).st.listeners = st.listeners := by
  rw [run_query, wrap_exception_st]
  by_cases hcl : st.closed
  · rw [if_pos hcl]
  · rw [if_neg hcl, run_query_body_st]
    simp [cursor_execute, he]

/-- `remove_query_listener` leaves exactly the other listeners (removal of an
absent identity raises but also changes nothing). -/
theorem remove_query_listener_listeners (st : ConnState) (k : Nat) :
    (remove_query_listener st k).st.listeners =
      st.listeners.filter (fun x => x.lid ≠ k) := by
  unfold remove_query_listener
  split
  · rfl
  · next hab =>
      have hall : ∀ x ∈ st.listeners, x.lid ≠ k := by
        intro x hx
        by_contra hx2
        exact hab (List.any_eq_true.mpr ⟨x, hx, by simpa using hx2⟩)
      simp only
      rw [List.filter_eq_self.mpr (fun x hx => by simpa using hall x hx)]

/-- `remove_query_listener` never changes liveness. -/
theorem remove_query_listener_closed (st : ConnState) (k : Nat) :
    (remove_query_listener st k).st.closed = st.closed := by
  unfold remove_query_listener
  split <;> rfl

/-- C6: every statement the engine executes produces exactly one broadcast of
its (statement id, statement text) pair to every listener registered at that
moment: a successful execute broadcasts once to each listener (and a failed
execute broadcasts nothing); a tagged batch insert broadcasts the tag-set
statement, the insert, and the tag-unset statement, in order; and
register/unregister mutations take effect for subsequent statements. -/
theorem C6_listener_fidelity (srv : ServerModel) (st : ConnState) (q : String)
    (tp : Bool) (hc : st.closed = false) :
    (∀ cur, srv.exec q = .ok cur →
      (run_query srv st q tp).st.listeners =
        broadcast1 st.listeners (cur.sfqid, q)) ∧
    (∀ e, srv.exec q = .error e →
      (run_query srv st q tp).st.listeners = st.listeners) ∧
    (∀ rows t cur1 cur2 cur3, t ≠ "" →
      srv.exec (set_query_tag_stmt t) = .ok cur1 → srv.exec q = .ok cur2 →
      srv.exec "alter session unset query_tag" = .ok cur3 →
      (run_batch_insert srv st q rows (some t) false).st.listeners =
        broadcast1 (broadcast1 (broadcast1 st.listeners
          (cur1.sfqid, set_query_tag_stmt t)) (cur2.sfqid, q))
          (cur3.sfqid, "alter session unset query_tag")) ∧
    (∀ l cur, srv.exec q = .ok cur →
      (run_query srv (add_query_listener st l) q tp).st.listeners =
        broadcast1 ((add_query_listener st l).listeners) (cur.sfqid, q)) ∧
    (∀ k cur, srv.exec q = .ok cur →
      (run_query srv (remove_query_listener st k).st q tp).st.listeners =
        broadcast1 (st.listeners.filter (fun x => x.lid ≠ k)) (cur.sfqid, q)) := by
  refine ⟨?_, ?_, ?_, ?_, ?_⟩
  · intro cur he
    exact run_query_listeners_ok srv st q tp cur hc he
  · intro e he
    exact run_query_listeners_execfail srv st q tp e he
  · intro rows t cur1 cur2 cur3 ht he1 he2 he3
    have htt : tag_truthy (effective_query_tag (some t) false) = true := by
      simp [effective_query_tag, tag_truthy, ht]
    rw [run_batch_insert, wrap_exception_st, if_neg (by simp [hc])]
    simp only [run_batch_insert_body, htt, if_true]
    have hget : (effective_query_tag (some t) false).getD "" = t := rfl
    rw [hget]
    simp [cursor_execute, he1, he2, he3, notify_query_listeners, broadcast1,
      Function.comp]
  · intro l cur he
    have hc2 : (add_query_listener st l).closed = false := by
      unfold add_query_listener
      split
      · exact hc
      · simpa using hc
    exact run_query_listeners_ok srv _ q tp cur hc2 he
  · intro k cur he
    have hc2 : (remove_query_listener st k).st.closed = false :=
      (remove_query_listener_closed st k).trans hc
    rw [run_query_listeners_ok srv _ q tp cur hc2 he,
      remove_query_listener_listeners]

/-- Witness for C6: one registered listener receives exactly one record per
executed statement (three for a tagged batch insert); a listener registered
before a statement receives its record, and one unregistered before it does
not. -/
theorem C6_listener_fidelity_witness :
    (run_query srvId st0 "s" false).st.listeners = [⟨1, [("123", "s")]⟩] ∧
    (run_batch_insert srvId st0 "ins" [] (some "tg") false).st.listeners =
      [⟨1, [("123", set_query_tag_stmt "tg"), ("123", "ins"),
        ("123", "alter session unset query_tag")]⟩] ∧
    (run_query srvId (add_query_listener st0 ⟨2, []⟩) "s" false).st.listeners =
      [⟨1, [("123", "s")]⟩, ⟨2, [("123", "s")]⟩] ∧
    (run_query srvId (remove_query_listener st0 1).st "s" false).st.listeners
      = [] := by
  have ha := C6_listener_fidelity srvId st0 "s" false rfl
  have hb := C6_listener_fidelity srvId st0 "ins" false rfl
  refine ⟨?_, ?_, ?_, ?_⟩
  · rw [ha.1 ⟨"123", []⟩ rfl]; decide
  · rw [hb.2.2.1 [] "tg" ⟨"123", []⟩ ⟨"123", []⟩ ⟨"123", []⟩ (by decide)
      rfl rfl rfl]
    decide
  · rw [ha.2.2.2.1 ⟨2, []⟩ ⟨"123", []⟩ rfl]; decide
  · rw [ha.2.2.2.2 1 ⟨"123", []⟩ rfl]; decide

/-- Counterexample to C7: `get_default_database` is a public operation of the
facade, yet on a closed connection it returns normally instead of failing
fast with the session-closed error — the source method is not decorated with
`_Decorator.wrap_exception` and consults no liveness at all. -/
theorem C7_counterexample :
    get_default_database true [("database", "db")] (fun s => s)
      = .ok (some "db") ∧
    get_default_database true [("database", "db")] (fun s => s)
      ≠ .error .sessionClosed := by
  refine ⟨rfl, by decide⟩

/-- C7 (amended): the operations decorated with `_Decorator.wrap_exception`
(`get_session_id`, `_get_current_parameter`, `get_parameter_value`,
`get_result_attributes`, `run_query`, `run_batch_insert`) first check
connection liveness and fail fast with the session-closed error when the
connection is closed, translate `ReauthenticationRequest` into the
session-expired error, and propagate every other exception unchanged — but
not every public operation is so decorated: `get_default_database` and
`get_default_schema` perform no liveness check. -/
theorem C7_wrap_exception_guard {α : Type} (st : ConnState)
    (body : ConnState → StepOut α) :
    (st.closed = true → wrap_exception st body = ⟨.error .sessionClosed, st⟩) ∧
    (st.closed = false → ∀ c st1,
      body st = ⟨.error (.reauthenticationRequest c), st1⟩ →
      wrap_exception st body = ⟨.error (.sessionExpired c), st1⟩) ∧
    (st.closed = false → ∀ e st1, body st = ⟨.error e, st1⟩ →
      (∀ c, e ≠ .reauthenticationRequest c) →
      wrap_exception st body = ⟨.error e, st1⟩) ∧
    (st.closed = false → ∀ a st1, body st = ⟨.ok a, st1⟩ →
      wrap_exception st body = ⟨.ok a, st1⟩) := by
  refine ⟨?_, ?_, ?_, ?_⟩
  · intro h
    simp [wrap_exception, h]
  · intro hc c st1 hb
    simp [wrap_exception, hc, hb]
  · intro hc e st1 hb hne
    cases e with
    | reauthenticationRequest c => exact absurd rfl (hne c)
    | sessionClosed => simp [wrap_exception, hc, hb]
    | sessionExpired c => simp [wrap_exception, hc, hb]
    | failedFetchPandas m => simp [wrap_exception, hc, hb]
    | queryCancelled => simp [wrap_exception, hc, hb]
    | emptyResult => simp [wrap_exception, hc, hb]
    | generic m => simp [wrap_exception, hc, hb]
  · intro hc a st1 hb
    simp [wrap_exception, hc, hb]

/-- Witness for C7 (amended): `get_session_id` on a closed connection fails
fast, and a re-authentication signal on a live one is translated. -/
theorem C7_wrap_exception_guard_witness :
    get_session_id ⟨true, [], [], []⟩ 7
      = ⟨.error .sessionClosed, ⟨true, [], [], []⟩⟩ ∧
    wrap_exception ⟨false, [], [], []⟩
      (fun st1 => (⟨.error (.reauthenticationRequest "x"), st1⟩ : StepOut Int))
      = ⟨.error (.sessionExpired "x"), ⟨false, [], [], []⟩⟩ := by
  constructor
  · exact (C7_wrap_exception_guard ⟨true, [], [], []⟩
      (fun st1 => (⟨.ok 7, st1⟩ : StepOut Int))).1 rfl
  · exact (C7_wrap_exception_guard ⟨false, [], [], []⟩ _).2.1 rfl "x" _ rfl

/-- Server whose tabular fetch is unsupported and whose fallback row fetch
fails with a generic transport error. -/
def srvFallbackBoom : ServerModel :=
  { exec := fun _ => .ok ⟨"123", []⟩
    pandasFetch := fun _ => .notSupported
    rowsFetch := fun _ => .error (.generic "boom") }

/-- Server whose tabular fetch fails with a non-unsupported error while the
fallback row fetch would succeed. -/
def srvPandasBoom : ServerModel :=
  { exec := fun _ => .ok ⟨"123", []⟩
    pandasFetch := fun _ => .otherError "x"
    rowsFetch := fun _ => .ok [] }

/-- Whether an outcome is the fatal fetch error `SERVER_FAILED_FETCH_PANDAS`. -/
def is_failed_fetch {α : Type} : Except PyExc α → Bool
  | .error (.failedFetchPandas _) => true
  | _ => false

/-- Counterexample to C8: when the fallback row fetch fails, the raw error —
not the fatal fetch error — surfaces; and the fatal fetch error is raised
when the tabular fetch fails with a non-unsupported error, even though the
fallback row fetch would have succeeded (it is never attempted). -/
theorem C8_counterexample :
    (run_query srvFallbackBoom st0 "q" true).res = .error (.generic "boom") ∧
    is_failed_fetch (run_query srvFallbackBoom st0 "q" true).res = false ∧
    (run_query srvPandasBoom st0 "q" true).res
      = .error (.failedFetchPandas "x") ∧
    srvPandasBoom.rowsFetch "q" = .ok [] := by
  refine ⟨by decide, by decide, by decide, by decide⟩

/-- C8 (amended): on a tabular (pandas) fetch request, the unsupported-kind
failure of the tabular fetch is recovered by falling back to the row fetch;
the fatal fetch error `SERVER_FAILED_FETCH_PANDAS` is raised exactly when the
tabular fetch itself fails with any other error; a failure of the fallback
row fetch propagates unchanged (up to the decorator's re-authentication
translation). -/
theorem C8_pandas_fetch_fallback (srv : ServerModel) (st : ConnState)
    (q : String) (cur : CursorResult) (hc : st.closed = false)
    (he : srv.exec q = .ok cur) :
    (∀ d, srv.pandasFetch q = .ok d →
      (run_query srv st q true).res = .ok ⟨d, cur.sfqid⟩) ∧
    (∀ d, srv.pandasFetch q = .notSupported → srv.rowsFetch q = .ok d →
      (run_query srv st q true).res = .ok ⟨d, cur.sfqid⟩) ∧
    (∀ e, srv.pandasFetch q = .notSupported → srv.rowsFetch q = .error e →
      (∀ c, e ≠ .reauthenticationRequest c) →
      (run_query srv st q true).res = .error e) ∧
    (∀ m, srv.pandasFetch q = .otherError m →
      (run_query srv st q true).res = .error (.failedFetchPandas m)) := by
  refine ⟨?_, ?_, ?_, ?_⟩
  · intro d hp
    simp [run_query, wrap_exception, run_query_body, cursor_execute, hc, he, hp]
  · intro d hp hf
    simp [run_query, wrap_exception, run_query_body, cursor_execute, hc, he,
      hp, hf]
  · intro e hp hf hne
    cases e with
    | reauthenticationRequest c => exact absurd rfl (hne c)
    | sessionClosed =>
        simp [run_query, wrap_exception, run_query_body, cursor_execute, hc,
          he, hp, hf]
    | sessionExpired c =>
        simp [run_query, wrap_exception, run_query_body, cursor_execute, hc,
          he, hp, hf]
    | failedFetchPandas m =>
        simp [run_query, wrap_exception, run_query_body, cursor_execute, hc,
          he, hp, hf]
    | queryCancelled =>
        simp [run_query, wrap_exception, run_query_body, cursor_execute, hc,
          he, hp, hf]
    | emptyResult =>
        simp [run_query, wrap_exception, run_query_body, cursor_execute, hc,
          he, hp, hf]
    | generic m =>
        simp [run_query, wrap_exception, run_query_body, cursor_execute, hc,
          he, hp, hf]
  · intro m hp
    simp [run_query, wrap_exception, run_query_body, cursor_execute, hc, he, hp]

/-- Witness for C8 (amended): the unsupported tabular fetch falls back to the
(successful) row fetch, and a non-unsupported tabular-fetch failure raises
the fatal fetch error. -/
theorem C8_pandas_fetch_fallback_witness :
    (run_query srvId st0 "q" true).res = .ok ⟨[], "123"⟩ ∧
    (run_query srvPandasBoom st0 "q2" true).res
      = .error (.failedFetchPandas "x") := by
  have h1 := C8_pandas_fetch_fallback srvId st0 "q" ⟨"123", []⟩ rfl rfl
  have h2 := C8_pandas_fetch_fallback srvPandasBoom st0 "q2" ⟨"123", []⟩ rfl rfl
  exact ⟨h1.2.1 [] rfl rfl, h2.2.2.2 "x" rfl⟩

/-- C10: for a requested query tag `t` outside a stored procedure, the
tag-set statement `run_batch_insert` submits first to the cursor is exactly
the concatenation of `alter session set query_tag=`, a single quote, the tag
text verbatim, and a closing single quote — no character of the tag is
escaped (in particular a tag containing a single quote is embedded
unescaped). Stated for a truthy (non-empty) tag, since Python's
`if query_tag:` skips the wrapping for an empty one. -/
theorem C10_query_tag_verbatim (srv : ServerModel) (st : ConnState)
    (q : String) (rows : List (List String)) (t : String)
    (hc : st.closed = false) (ht : t ≠ "") (hlog : st.execLog = []) :
    (run_batch_insert srv st q rows (some t) false).st.execLog.head? =
      some ("alter session set query_tag=" ++ squote ++ t ++ squote) := by
  rw [run_batch_insert, wrap_exception_st, if_neg (by simp [hc])]
  have htt : tag_truthy (effective_query_tag (some t) false) = true := by
    simp [effective_query_tag, tag_truthy, ht]
  simp only [run_batch_insert_body, htt, if_true]
  have hget : (effective_query_tag (some t) false).getD "" = t := rfl
  rw [hget]
  split
  · next e s1 heq =>
      have h : s1.execLog = st.execLog ++ [set_query_tag_stmt t] := by
        have hh := cursor_execute_execLog srv st (set_query_tag_stmt t)
        rw [heq] at hh
        exact hh
      simp [h, hlog, set_query_tag_stmt]
  · next c1 s1 heq =>
      have h1 : s1.execLog = st.execLog ++ [set_query_tag_stmt t] := by
        have hh := cursor_execute_execLog srv st (set_query_tag_stmt t)
        rw [heq] at hh
        exact hh
      split
      · next e s2 heq2 =>
          have h2 : s2.execLog = s1.execLog ++ [q] := by
            have hh := cursor_execute_execLog srv s1 q
            rw [heq2] at hh
            exact hh
          simp [h2, h1, hlog, set_query_tag_stmt]
      · next c2 s2 heq2 =>
          have h2 : s2.execLog = s1.execLog ++ [q] := by
            have hh := cursor_execute_execLog srv s1 q
            rw [heq2] at hh
            exact hh
          split
          · next e s3 heq3 =>
              have h3 : s3.execLog = s2.execLog
                  ++ ["alter session unset query_tag"] := by
                have hh := cursor_execute_execLog srv s2
                  "alter session unset query_tag"
                rw [heq3] at hh
                exact hh
              simp [h3, h2, h1, hlog, set_query_tag_stmt]
          · next c3 s3 heq3 =>
              have h3 : s3.execLog = s2.execLog
                  ++ ["alter session unset query_tag"] := by
                have hh := cursor_execute_execLog srv s2
                  "alter session unset query_tag"
                rw [heq3] at hh
                exact hh
              simp [h3, h2, h1, hlog, set_query_tag_stmt]

/-- Witness for C10: a tag containing a single quote is embedded verbatim
between the delimiting quotes, with no escaping. -/
theorem C10_query_tag_verbatim_witness :
    ("a" ++ squote ++ "b" ≠ "") ∧
    (run_batch_insert srvId st0 "ins" [] (some ("a" ++ squote ++ "b"))
      false).st.execLog.head? =
      some ("alter session set query_tag=" ++ squote ++ ("a" ++ squote ++ "b")
        ++ squote) := by
  refine ⟨by decide, ?_⟩
  exact C10_query_tag_verbatim srvId st0 "ins" [] ("a" ++ squote ++ "b") rfl
    (by decide) rfl
